import Mathlib

/-!
Shallow embedding of the QEMU GTK4 display backend
(src/ui/gtk4.c, src/ui/gtk4-gfx-vc.c, src/ui/gtk4-gl-area.c).

State-mutating C functions become Lean functions from a state record to a
pair of the new state and a list of emitted effects/events (calls into the
windowing layer, trace points, guest input events).  External collaborators
(GDK, EGL helpers, the QEMU console core) are modelled at their interface
boundary: their observable results are parameters, their invocations are
effects.

The repository contains two variants of several scanout functions: the
static ones in gtk4-gfx-vc.c, which are the ones wired into the registered
DisplayChangeListenerOps table (dcl_gl_area_ops), and the non-static ones in
gtk4-gl-area.c.  The gtk4-gl-area.c file is stale: it reads a field
vc->gfx.gl_area that does not exist in VirtualGfxConsole (include/ui/gtk4.h)
and calls gd_update_monitor_refresh_rate with two arguments against a
one-argument prototype, so it cannot be part of the build.  Both variants
are embedded; the _vc suffix marks the live gtk4-gfx-vc.c variant and the
_glarea suffix marks the gtk4-gl-area.c variant.
-/

namespace Gtk4

/-! ## Grab arbiter (src/ui/gtk4.c) -/

/-- A virtual console as seen by the grab arbiter: its identity and whether
it has been detached into its own top-level window (`vc->window != NULL`).
Distinct consoles in `GtkDisplayState.vc[]` are distinct objects; pointer
equality is modelled as record equality with distinct ids. -/
structure VC where
  id : Nat
  window : Bool
deriving DecidableEq

/-- Observable events of the grab arbiter: `gd_grab_update` calls (seat
grab/ungrab requests), `gd_update_caption` calls (recording the pointer
owner the caption code observes at that moment), and the trace points. -/
inductive GrabEvent where
  | seatUpdate (vc : VC) (kbd ptr : Bool)
  | caption (ptrOwner : Option VC)
  | traceUngrab (vc : VC)
  | traceGrab (vc : VC) (reason : Nat)
deriving DecidableEq

/-- The grab-relevant fields of `GtkDisplayState` (include/ui/gtk4.h):
pointer and keyboard owners, the root position recorded at grab time, and
the boolean state of the stateful "grab-input" GSimpleAction. -/
structure GrabState where
  ptr_owner : Option VC
  kbd_owner : Option VC
  grab_x_root : Int
  grab_y_root : Int
  grab_action_state : Bool
deriving DecidableEq

/-- `gd_ungrab_pointer` (src/ui/gtk4.c:300-320): if nobody owns the pointer
it returns at once; otherwise it clears `ptr_owner` first, then performs the
seat update for the old owner, updates the caption (which therefore observes
a null owner) and emits the ungrab trace point. -/
def gd_ungrab_pointer (s : GrabState) : GrabState × List GrabEvent :=
  match s.ptr_owner with
  | none => (s, [])
  | some vc =>
    let s1 := { s with ptr_owner := none }
    (s1, [GrabEvent.seatUpdate vc (decide (s1.kbd_owner = some vc)) false,
          GrabEvent.caption s1.ptr_owner,
          GrabEvent.traceUngrab vc])

/-- `gd_grab_pointer` (src/ui/gtk4.c:322-340): no-op if `vc` already owns
the pointer; if another console owns it, the full ungrab sequence runs
first.  Then the seat is updated for `vc`, the current root pointer position
(`px`, `py`, read from `gdk_device_get_surface_at_position`) is recorded,
ownership is assigned and the caption updated. -/
def gd_grab_pointer (vc : VC) (reason : Nat) (px py : Int) (s : GrabState) :
    GrabState × List GrabEvent :=
  match s.ptr_owner with
  | some owner =>
    if owner = vc then (s, [])
    else
      let r := gd_ungrab_pointer s
      let s2 := { r.1 with
                  grab_x_root := px, grab_y_root := py,
                  ptr_owner := some vc }
      (s2, r.2 ++ [GrabEvent.seatUpdate vc (decide (r.1.kbd_owner = some vc)) true,
                   GrabEvent.caption (some vc),
                   GrabEvent.traceGrab vc reason])
  | none =>
    let s2 := { s with
                grab_x_root := px, grab_y_root := py,
                ptr_owner := some vc }
    (s2, [GrabEvent.seatUpdate vc (decide (s.kbd_owner = some vc)) true,
          GrabEvent.caption (some vc),
          GrabEvent.traceGrab vc reason])

/-- `gd_mouse_mode_change` (src/ui/gtk4.c:249-269): when the pointer-device
mode has become absolute and some console owns the pointer, then for an
owner without its own window the handler only sets the state of the
"grab-input" GSimpleAction to FALSE (`s_action_set_state` wraps
`g_simple_action_set_state`, which changes the action state without
invoking the action's activate handler), while for an owner that does have
its own window it calls `gd_ungrab_pointer`.  The trailing
`gd_update_cursor` loop touches no arbiter state. -/
def gd_mouse_mode_change (is_absolute : Bool) (s : GrabState) :
    GrabState × List GrabEvent :=
  match s.ptr_owner with
  | some owner =>
    if is_absolute then
      if owner.window = false then
        ({ s with grab_action_state := false }, [])
      else
        gd_ungrab_pointer s
    else (s, [])
  | none => (s, [])

/-- A pointer-grab operation, for quantifying over call sequences. -/
inductive PtrOp where
  | grab (vc : VC) (reason : Nat) (px py : Int)
  | ungrab
  | modeChange (is_absolute : Bool)
deriving DecidableEq

/-- Apply one pointer-grab operation. -/
def applyPtrOp (s : GrabState) : PtrOp → GrabState × List GrabEvent
  | .grab vc reason px py => gd_grab_pointer vc reason px py s
  | .ungrab => gd_ungrab_pointer s
  | .modeChange b => gd_mouse_mode_change b s

/-- Apply a sequence of pointer-grab operations, accumulating events. -/
def applyPtrOps (s : GrabState) : List PtrOp → GrabState × List GrabEvent
  | [] => (s, [])
  | op :: ops =>
    let r := applyPtrOp s op
    let r2 := applyPtrOps r.1 ops
    (r2.1, r.2 ++ r2.2)

/-! ## Scanout pipeline (src/ui/gtk4-gfx-vc.c and src/ui/gtk4-gl-area.c) -/

/-- A guest dma-buf (QemuDmaBuf, referenced but never owned by the UI):
dimensions, the texture handle produced by import (0 = no texture), the
fence file descriptor, the fence capability flag and the per-frame
submission flag. -/
structure DmaBuf where
  width : Nat
  height : Nat
  texture : Nat
  fence_fd : Int
  allow_fences : Bool
  draw_submitted : Bool
deriving DecidableEq

/-- An egl_fb (ui/egl-helpers.h): backing dimensions, bound texture
(0 = none) and the pending dma-buf reference. -/
structure EglFb where
  width : Nat
  height : Nat
  texture : Nat
  dmabuf : Option DmaBuf
deriving DecidableEq

/-- The zeroed egl_fb. -/
def EglFb.empty : EglFb := ⟨0, 0, 0, none⟩

/-- A DisplaySurface: guest logical frame dimensions plus the placeholder
flag tested by `is_placeholder`. -/
structure DisplaySurface where
  width : Nat
  height : Nat
  placeholder : Bool
deriving DecidableEq

/-- The scanout-relevant fields of `VirtualGfxConsole`
(include/ui/gtk4.h): scanout rectangle, orientation, mode flag, guest
framebuffer, current display surface (none before the first switch), shader
state presence (`gls != NULL`) and the coalescing update counter. -/
structure GfxState where
  x : Nat
  y : Nat
  w : Nat
  h : Nat
  y0_top : Bool
  scanout_mode : Bool
  guest_fb : EglFb
  ds : Option DisplaySurface
  gls : Bool
  glupdates : Nat
deriving DecidableEq

/-- Calls the scanout pipeline makes into external collaborators (EGL
helpers, shader helpers, GTK redraw/resize machinery, the emulation-side
block signal `graphic_hw_gl_block` and fd-handler registration).  `blockOn`
records the pending dma-buf the block was fired on account of. -/
inductive GfxEffect where
  | eglFbDestroy
  | surfaceDestroyTexture
  | surfaceCreateTexture
  | eglFbSetup (bw bh tex : Nat)
  | blockOn (d : DmaBuf)
  | blockOff
  | queueRender
  | updateWindowsize
  | finiShader
  | initShader
  | unregisterFd (fd : Int)
  | closeFd (fd : Int)
deriving DecidableEq

/-- `gtk_gl_area_set_scanout_mode` (src/ui/gtk4-gfx-vc.c:48-62), the
variant in the registered ops file: early return when the mode is already
the requested one; on exit from scanout mode the guest framebuffer is
destroyed (`egl_fb_destroy` zeroes the egl_fb) and, when a display surface
exists, its texture is destroyed and recreated. -/
def gtk_gl_area_set_scanout_mode_vc (vc : GfxState) (scanout : Bool) :
    GfxState × List GfxEffect :=
  if vc.scanout_mode = scanout then (vc, [])
  else
    let vc1 := { vc with scanout_mode := scanout }
    if scanout then (vc1, [])
    else
      let vc2 := { vc1 with guest_fb := EglFb.empty }
      match vc1.ds with
      | some _ =>
        (vc2, [GfxEffect.eglFbDestroy, GfxEffect.surfaceDestroyTexture,
               GfxEffect.surfaceCreateTexture])
      | none => (vc2, [GfxEffect.eglFbDestroy])

/-- `gtk_gl_area_set_scanout_mode` (src/ui/gtk4-gl-area.c:38-49), the stale
gl-area variant: same early return and guest-framebuffer destruction, but
no surface-texture recreation. -/
def gtk_gl_area_set_scanout_mode_glarea (vc : GfxState) (scanout : Bool) :
    GfxState × List GfxEffect :=
  if vc.scanout_mode = scanout then (vc, [])
  else
    let vc1 := { vc with scanout_mode := scanout }
    if scanout then (vc1, [])
    else ({ vc1 with guest_fb := EglFb.empty }, [GfxEffect.eglFbDestroy])

/-- `gd_gl_area_scanout_texture` (src/ui/gtk4-gfx-vc.c:94-121): records the
scanout rectangle, then a zero backing id or a zero width/height disables
scanout mode; otherwise scanout mode is entered and `egl_fb_setup_for_tex`
binds the backing texture (it sets the egl_fb dimensions and texture and
does not touch its dmabuf reference). -/
def gd_gl_area_scanout_texture_vc (vc : GfxState) (backing_id : Nat)
    (backing_y_0_top : Bool) (backing_width backing_height x y w h : Nat) :
    GfxState × List GfxEffect :=
  let vc1 := { vc with
               x := x, y := y, w := w, h := h,
               y0_top := backing_y_0_top }
  if backing_id = 0 ∨ vc1.w = 0 ∨ vc1.h = 0 then
    gtk_gl_area_set_scanout_mode_vc vc1 false
  else
    let r := gtk_gl_area_set_scanout_mode_vc vc1 true
    ({ r.1 with
       guest_fb := { r.1.guest_fb with
                     width := backing_width,
                     height := backing_height,
                     texture := backing_id } },
     r.2 ++ [GfxEffect.eglFbSetup backing_width backing_height backing_id])

/-- `gd_gl_area_scanout_dmabuf` (src/ui/gtk4-gfx-vc.c:124-142):
`egl_dmabuf_import_texture` tries to bind a texture to the dma-buf (the
resulting handle is the parameter `import_tex`, 0 on failure); a failed
attempt returns with the console state untouched.  On success the imported
handle is handed to `gd_gl_area_scanout_texture`, and the dma-buf is
retained as the pending guest framebuffer only when it allows fences. -/
def gd_gl_area_scanout_dmabuf_vc (vc : GfxState) (d : DmaBuf)
    (import_tex : Nat) : GfxState × List GfxEffect :=
  let d1 := { d with texture := import_tex }
  if d1.texture = 0 then (vc, [])
  else
    let r := gd_gl_area_scanout_texture_vc vc d1.texture false
               d1.width d1.height 0 0 d1.width d1.height
    if d1.allow_fences then
      ({ r.1 with guest_fb := { r.1.guest_fb with dmabuf := some d1 } }, r.2)
    else r

/-- `gd_gl_area_scanout_flush` (src/ui/gtk4-gfx-vc.c:144-149), the variant
installed as `.dpy_gl_update` in `dcl_gl_area_ops`: it only logs and
performs no state change and no effect. -/
def gd_gl_area_scanout_flush_vc (vc : GfxState) : GfxState × List GfxEffect :=
  (vc, [])

/-- `gd_gl_area_scanout_flush` (src/ui/gtk4-gl-area.c:145-157), the stale
gl-area variant: when a pending dma-buf has no submission recorded for this
frame, fire the emulation-side block signal and mark it submitted; always
queue a redraw. -/
def gd_gl_area_scanout_flush_glarea (vc : GfxState) :
    GfxState × List GfxEffect :=
  match vc.guest_fb.dmabuf with
  | some d =>
    if d.draw_submitted then (vc, [GfxEffect.queueRender])
    else
      ({ vc with guest_fb := { vc.guest_fb with
           dmabuf := some { d with draw_submitted := true } } },
       [GfxEffect.blockOn d, GfxEffect.queueRender])
  | none => (vc, [GfxEffect.queueRender])

/-- `gd_hw_gl_flushed` (src/ui/gtk4-gl-area.c:51-60), the fence-ready
callback: unregisters the fd handler, closes the fence descriptor, clears
it to -1 and unblocks the guest write path.  It dereferences the pending
dma-buf unconditionally, so the result is `none` when no dma-buf is
pending (a null dereference in C; the callback is only ever registered for
a pending fence). -/
def gd_hw_gl_flushed (vc : GfxState) : Option (GfxState × List GfxEffect) :=
  match vc.guest_fb.dmabuf with
  | some d =>
    some ({ vc with guest_fb := { vc.guest_fb with
              dmabuf := some { d with fence_fd := -1 } } },
          [GfxEffect.unregisterFd d.fence_fd, GfxEffect.closeFd d.fence_fd,
           GfxEffect.blockOff])
  | none => none

/-- `gd_dpy_gfx_switch` (src/ui/gtk4-gfx-vc.c:178-208): destroys the old
surface texture and adopts the new surface; a placeholder surface on a
console with nonzero index releases the shader state and returns; otherwise
a missing shader is (re)initialised, and only when a shader already existed
and an old surface with different dimensions existed is a window resize
requested; finally the texture for the new surface is created. -/
def gd_dpy_gfx_switch (console_index : Nat) (vc : GfxState)
    (surface : DisplaySurface) : GfxState × List GfxEffect :=
  let old := vc.ds
  let vc1 := { vc with ds := some surface }
  if surface.placeholder = true ∧ console_index ≠ 0 then
    ({ vc1 with gls := false },
     [GfxEffect.surfaceDestroyTexture, GfxEffect.finiShader])
  else if vc1.gls = false then
    ({ vc1 with gls := true },
     [GfxEffect.surfaceDestroyTexture, GfxEffect.initShader,
      GfxEffect.surfaceCreateTexture])
  else
    match old with
    | some os =>
      if os.width ≠ surface.width ∨ os.height ≠ surface.height then
        (vc1, [GfxEffect.surfaceDestroyTexture, GfxEffect.updateWindowsize,
               GfxEffect.surfaceCreateTexture])
      else
        (vc1, [GfxEffect.surfaceDestroyTexture,
               GfxEffect.surfaceCreateTexture])
    | none =>
      (vc1, [GfxEffect.surfaceDestroyTexture, GfxEffect.surfaceCreateTexture])

/-- A scanout-pipeline operation, for quantifying over call sequences.  The
flush of both variants is included so the fence-gating statement also
covers the gl-area flush implementation. -/
inductive GfxOp where
  | scanoutTexture (backing_id : Nat) (y0 : Bool) (bw bh x y w h : Nat)
  | scanoutDmabuf (d : DmaBuf) (import_tex : Nat)
  | scanoutDisable
  | flushVc
  | flushGlarea
  | hwFlushed
deriving DecidableEq

/-- Apply one scanout operation (live gtk4-gfx-vc.c entry points, plus the
gl-area flush; `hwFlushed` with no pending dma-buf is the never-registered
callback and leaves the state alone). -/
def applyGfxOp (vc : GfxState) : GfxOp → GfxState × List GfxEffect
  | .scanoutTexture b y0 bw bh x y w h =>
    gd_gl_area_scanout_texture_vc vc b y0 bw bh x y w h
  | .scanoutDmabuf d t => gd_gl_area_scanout_dmabuf_vc vc d t
  | .scanoutDisable => gtk_gl_area_set_scanout_mode_vc vc false
  | .flushVc => gd_gl_area_scanout_flush_vc vc
  | .flushGlarea => gd_gl_area_scanout_flush_glarea vc
  | .hwFlushed =>
    match gd_hw_gl_flushed vc with
    | some r => r
    | none => (vc, [])

/-- Apply a sequence of scanout operations, accumulating effects. -/
def applyGfxOps (vc : GfxState) : List GfxOp → GfxState × List GfxEffect
  | [] => (vc, [])
  | op :: ops =>
    let r := applyGfxOp vc op
    let r2 := applyGfxOps r.1 ops
    (r2.1, r.2 ++ r2.2)

/-- Every pending dma-buf reference allows fences.  The retention test in
`gd_gl_area_scanout_dmabuf` establishes this and every operation preserves
it. -/
def pendingFenceOK (vc : GfxState) : Bool :=
  match vc.guest_fb.dmabuf with
  | some d => d.allow_fences
  | none => true

/-! ## Input router and refresh scheduler (src/ui/gtk4.c,
src/ui/gtk4-gfx-vc.c) -/

/-- Conversion of a C `double` to `int`: truncation toward zero (the
numerator divided by the positive denominator with truncating
division). -/
def ratTrunc (q : ℚ) : Int := Int.tdiv q.num (q.den : Int)

/-- One axis of the window-space to guest-surface-space conversion of
`gd_motion_event` (src/ui/gtk4-gfx-vc.c:585-678): the scaled framebuffer
extent is truncated to int, the letterbox margin is half the surplus window
extent, and the guest coordinate is the margin-corrected pointer position
divided by the widget scale and multiplied by the backing-store scale
factor, truncated to int. -/
def motionConv (scale : ℚ) (ws winSize : Int) (surfSize : Nat)
    (pointer : ℚ) : Int :=
  let fb : Int := ratTrunc ((surfSize : ℚ) * scale)
  let m : Int := if winSize > fb then (winSize - fb) / 2 else 0
  ratTrunc ((((ratTrunc pointer) - m : Int) : ℚ) / scale * (ws : ℚ))

/-- Guest input events queued by the input router, in queue order. -/
inductive InputEvent where
  | absAxis (axis : Nat) (value minV maxV : Int)
  | relAxis (axis : Nat) (delta : Int)
  | sync
deriving DecidableEq

/-- The last recorded pointer position (`last_x`, `last_y`, `last_set`
fields of `GtkDisplayState`). -/
structure MotionState where
  last_x : Int
  last_y : Int
  last_set : Bool
deriving DecidableEq

/-- A monitor work-area rectangle, as returned by
`gdk_monitor_get_geometry`. -/
structure MonitorGeometry where
  x : Int
  y : Int
  width : Int
  height : Int
deriving DecidableEq

/-- `gd_motion_event` (src/ui/gtk4-gfx-vc.c:585-678).  Inputs: the global
pointer mode, whether this console is the current pointer owner
(`s->ptr_owner == vc`), the console's display surface, the widget scale,
the backing-store scale factor `ws` and window extent `ww`/`wh`, the
monitor geometry and the raw pointer position.  In absolute mode an
out-of-bounds coordinate is dropped before the position is recorded;
in-bounds coordinates queue two absolute axis events and a sync.  In
relative mode, only with a valid last position on the owning console are
two relative axis events and a sync queued; the position is then recorded,
and a monitor-edge hit afterwards invalidates the recorded position. -/
def gd_motion_event (is_absolute is_owner : Bool)
    (ds : Option DisplaySurface) (scale : ℚ) (ws ww wh : Int)
    (geo : MonitorGeometry) (pointer_x pointer_y : ℚ)
    (s : MotionState) : MotionState × List InputEvent :=
  match ds with
  | none => (s, [])
  | some surf =>
    let x := motionConv scale ws ww surf.width pointer_x
    let y := motionConv scale ws wh surf.height pointer_y
    if is_absolute then
      if x < 0 ∨ y < 0 ∨ x ≥ (surf.width : Int) ∨ y ≥ (surf.height : Int) then
        (s, [])
      else
        (⟨x, y, true⟩,
         [InputEvent.absAxis 0 x 0 (surf.width : Int),
          InputEvent.absAxis 1 y 0 (surf.height : Int),
          InputEvent.sync])
    else
      let evts :=
        if s.last_set && is_owner then
          [InputEvent.relAxis 0 (x - s.last_x),
           InputEvent.relAxis 1 (y - s.last_y),
           InputEvent.sync]
        else []
      let s1 : MotionState := ⟨x, y, true⟩
      if is_owner then
        let px := ratTrunc pointer_x
        let py := ratTrunc pointer_y
        if px ≤ geo.x ∨ px - geo.x ≥ geo.width - 1 ∨
           py ≤ geo.y ∨ py - geo.y ≥ geo.height - 1 then
          ({ s1 with last_set := false }, evts)
        else (s1, evts)
      else (s1, evts)

/-- Conversion of a C `int` to `size_t` (unsigned 64-bit): reduction
modulo 2^64, so negative values become huge. -/
def size_t_conv (s : Int) : Nat := (s % (2 ^ 64 : Int)).toNat

/-- `gd_map_keycode` (src/ui/gtk4.c:436-446): with no loaded table the
neutral code 0 is returned; the guard compares the `int` scancode against
the `size_t` table length with the usual arithmetic conversions, and only
`scancode > keycode_maplen` is rejected, so `scancode == keycode_maplen`
reaches the table access.  The access is `List.get?`: `none` marks a read
at or past the table's length (out of bounds in C). -/
def gd_map_keycode (keycode_map : Option (List Nat)) (scancode : Int) :
    Option Nat :=
  match keycode_map with
  | none => some 0
  | some m =>
    if size_t_conv scancode > m.length then some 0
    else m.get? scancode.toNat

/-- `GUI_REFRESH_INTERVAL_DEFAULT` — modelled from the spec: the default
refresh interval constant lives in the external header ui/console.h (30
ms); its exact value is irrelevant to the claims. -/
def GUI_REFRESH_INTERVAL_DEFAULT : Nat := 30

/-- `gd_update_monitor_refresh_rate` (src/ui/gtk4.c:390-414), reduced to
the update-interval computation: the monitor rate in millihertz is read
only when the widget has a native surface, otherwise it is 0; a nonzero
rate gives `MIN(1000*1000 / rate, default)` milliseconds, a zero rate gives
the default. -/
def gd_update_monitor_refresh_rate (surface_realized : Bool)
    (monitor_rate : Nat) : Nat :=
  let refresh_rate := if surface_realized then monitor_rate else 0
  if refresh_rate ≠ 0 then
    min (1000 * 1000 / refresh_rate) GUI_REFRESH_INTERVAL_DEFAULT
  else GUI_REFRESH_INTERVAL_DEFAULT

/-! ## Theorems -/

/-- Claim C9: on each refresh tick the effective update interval equals
`min (1000*1000 / rate) default` when the reported rate (millihertz) is
nonzero, equals the default exactly when the rate is zero or the console's
surface is unrealized, and consequently never exceeds the default. -/
theorem refresh_interval_clamped (surface_realized : Bool)
    (monitor_rate : Nat) :
    (surface_realized = true → monitor_rate ≠ 0 →
      gd_update_monitor_refresh_rate surface_realized monitor_rate =
        min (1000 * 1000 / monitor_rate) GUI_REFRESH_INTERVAL_DEFAULT) ∧
    (monitor_rate = 0 ∨ surface_realized = false →
      gd_update_monitor_refresh_rate surface_realized monitor_rate =
        GUI_REFRESH_INTERVAL_DEFAULT) ∧
    gd_update_monitor_refresh_rate surface_realized monitor_rate ≤
      GUI_REFRESH_INTERVAL_DEFAULT := by
  refine ⟨fun hs hr => ?_, fun h => ?_, ?_⟩
  · subst hs
    simp [gd_update_monitor_refresh_rate, hr]
  · rcases h with h | h <;> simp [gd_update_monitor_refresh_rate, h]
  · unfold gd_update_monitor_refresh_rate
    cases surface_realized
    · simp
    · by_cases hr : monitor_rate = 0 <;> simp [hr]

/-- Witness for C9: a 60 Hz monitor (60000 mHz) on a realized surface gives
the clamped interval `min 16 30 = 16`. -/
theorem refresh_interval_clamped_witness :
    (60000 ≠ 0) ∧
    gd_update_monitor_refresh_rate true 60000 =
      min (1000 * 1000 / 60000) GUI_REFRESH_INTERVAL_DEFAULT :=
  ⟨by decide, (refresh_interval_clamped true 60000).1 rfl (by decide)⟩

/-- Claim C7 is refuted at the boundary: the guard in `gd_map_keycode`
rejects only scancodes strictly greater than the table length, so a
scancode equal to the length reaches the table read one slot past the end
(modelled as `none`).  A missing table, a negative scancode and a scancode
past the boundary do yield the neutral code 0, and an in-range scancode
yields its table entry. -/
theorem gd_map_keycode_boundary_oob :
    gd_map_keycode (some [42]) 1 = none ∧
    gd_map_keycode (some [42]) 0 = some 42 ∧
    gd_map_keycode (some [42]) 2 = some 0 ∧
    gd_map_keycode (some [42]) (-1) = some 0 ∧
    gd_map_keycode none 7 = some 0 := by
  refine ⟨?_, ?_, ?_, ?_, rfl⟩ <;> decide

/-- A fence-capable dma-buf with no submission recorded for the current
frame. -/
def c2_dmabuf : DmaBuf := ⟨1024, 768, 7, 5, true, false⟩

/-- A console presenting `c2_dmabuf` in scanout mode, as left by a
successful `gd_gl_area_scanout_dmabuf`. -/
def c2_state : GfxState :=
  { x := 0, y := 0, w := 1024, h := 768, y0_top := false,
    scanout_mode := true, guest_fb := ⟨1024, 768, 7, some c2_dmabuf⟩,
    ds := some ⟨1024, 768, false⟩, gls := true, glupdates := 0 }

/-- Claim C2 fails on the built code: with a fence-capable dma-buf pending
and `draw_submitted = false`, the flush handler registered in
`dcl_gl_area_ops` (the gtk4-gfx-vc.c variant) leaves the state untouched
and emits nothing — no false→true transition of `draw_submitted`, no
emulation-side block signal, no redraw — while the stale gtk4-gl-area.c
variant performs exactly the claimed sequence (block signal, submission
mark, redraw). -/
theorem scanout_flush_stub_no_backpressure :
    c2_state.guest_fb.dmabuf = some c2_dmabuf ∧
    c2_dmabuf.allow_fences = true ∧
    c2_dmabuf.draw_submitted = false ∧
    gd_gl_area_scanout_flush_vc c2_state = (c2_state, []) ∧
    gd_gl_area_scanout_flush_glarea c2_state =
      ({ c2_state with
         guest_fb := { c2_state.guest_fb with
                       dmabuf := some { c2_dmabuf with
                                        draw_submitted := true } } },
       [GfxEffect.blockOn c2_dmabuf, GfxEffect.queueRender]) := by
  refine ⟨rfl, rfl, rfl, rfl, ?_⟩
  decide

/-- Claim C10: requesting the scanout mode the console is already in is a
complete no-op in both variants — the state is returned unchanged and no
external call (texture destruction or creation included) is made; and a
nonempty effect list, in particular the guest-framebuffer destruction and
surface-texture recreation, occurs only on a genuine true→false transition
of `scanout_mode`. -/
theorem set_scanout_mode_noop (vc : GfxState) (b : Bool) :
    (vc.scanout_mode = b →
      gtk_gl_area_set_scanout_mode_vc vc b = (vc, []) ∧
      gtk_gl_area_set_scanout_mode_glarea vc b = (vc, [])) ∧
    ((gtk_gl_area_set_scanout_mode_vc vc b).2 ≠ [] →
      vc.scanout_mode = true ∧ b = false) ∧
    ((gtk_gl_area_set_scanout_mode_glarea vc b).2 ≠ [] →
      vc.scanout_mode = true ∧ b = false) := by
  cases hm : vc.scanout_mode <;> cases b <;>
    cases hd : vc.ds <;>
      simp [gtk_gl_area_set_scanout_mode_vc,
            gtk_gl_area_set_scanout_mode_glarea, hm, hd]

/-- A console currently in scanout mode, for the C10 witness. -/
def c10_state : GfxState :=
  { x := 0, y := 0, w := 64, h := 64, y0_top := false, scanout_mode := true,
    guest_fb := ⟨64, 64, 3, none⟩, ds := some ⟨64, 64, false⟩, gls := true,
    glupdates := 0 }

/-- Witness for C10: re-requesting scanout mode on a console already in
scanout mode changes nothing in either variant. -/
theorem set_scanout_mode_noop_witness :
    c10_state.scanout_mode = true ∧
    gtk_gl_area_set_scanout_mode_vc c10_state true = (c10_state, []) ∧
    gtk_gl_area_set_scanout_mode_glarea c10_state true = (c10_state, []) :=
  ⟨rfl, ((set_scanout_mode_noop c10_state true).1 rfl).1,
        ((set_scanout_mode_noop c10_state true).1 rfl).2⟩

/-- A tabbed console (no top-level window of its own). -/
def c1_tab_console : VC := ⟨0, false⟩

/-- A detached console (own top-level window). -/
def c1_det_console : VC := ⟨1, true⟩

/-- A display state in which the tabbed console owns the pointer. -/
def c1_tab_state : GrabState := ⟨some c1_tab_console, none, 0, 0, true⟩

/-- A display state in which the detached console owns the pointer. -/
def c1_det_state : GrabState := ⟨some c1_det_console, none, 0, 0, true⟩

/-- Claim C1 is false on the code, in both halves: when the mode becomes
absolute with a tabbed (windowless) owner, `gd_mouse_mode_change` only sets
the "grab-input" action state and `ptr_owner` stays non-null (the claim
says it becomes null), and with a detached owner it calls
`gd_ungrab_pointer`, so `ptr_owner` changes to null (the claim says it is
unchanged). -/
theorem mouse_mode_change_claim_false :
    (gd_mouse_mode_change true c1_tab_state).1.ptr_owner ≠ none ∧
    (gd_mouse_mode_change true c1_det_state).1.ptr_owner ≠
      c1_det_state.ptr_owner := by
  refine ⟨?_, ?_⟩ <;> decide

/-- Amended claim C1: when the global pointer mode switches to absolute
while some console holds the pointer grab, the grab is released exactly
when that console HAS its own top-level window — for a detached owner the
handler behaves as `gd_ungrab_pointer` (owner cleared, seat updated,
caption updated); for a tabbed owner only the "grab-input" action state is
set to false (`g_simple_action_set_state` does not invoke the action's
activate handler) and `ptr_owner` is unchanged. -/
theorem mouse_mode_change_amended (s : GrabState) (vc : VC)
    (h : s.ptr_owner = some vc) :
    (vc.window = false →
      gd_mouse_mode_change true s =
        ({ s with grab_action_state := false }, []) ∧
      (gd_mouse_mode_change true s).1.ptr_owner = s.ptr_owner) ∧
    (vc.window = true →
      gd_mouse_mode_change true s = gd_ungrab_pointer s ∧
      (gd_mouse_mode_change true s).1.ptr_owner = none ∧
      (gd_mouse_mode_change true s).2 =
        [GrabEvent.seatUpdate vc (decide (s.kbd_owner = some vc)) false,
         GrabEvent.caption none,
         GrabEvent.traceUngrab vc]) := by
  obtain ⟨po, ko, gx, gy, gas⟩ := s
  simp only [GrabState.mk.injEq] at h ⊢
  subst_vars
  cases hw : vc.window <;>
    simp [gd_mouse_mode_change, gd_ungrab_pointer, hw]

/-- Witness for C1 (amended): on the concrete detached-owner state the
handler clears the pointer owner, and on the concrete tabbed-owner state it
leaves the owner in place. -/
theorem mouse_mode_change_amended_witness :
    c1_det_state.ptr_owner = some c1_det_console ∧
    c1_det_console.window = true ∧
    (gd_mouse_mode_change true c1_det_state).1.ptr_owner = none ∧
    c1_tab_state.ptr_owner = some c1_tab_console ∧
    c1_tab_console.window = false ∧
    (gd_mouse_mode_change true c1_tab_state).1.ptr_owner =
      c1_tab_state.ptr_owner :=
  ⟨rfl, rfl,
   ((mouse_mode_change_amended c1_det_state c1_det_console rfl).2 rfl).2.1,
   rfl, rfl,
   ((mouse_mode_change_amended c1_tab_state c1_tab_console rfl).1 rfl).2⟩

/-- Claim C3: (1) grabbing the pointer for the console that already owns it
changes nothing and emits nothing; (2) a change of owner from `a` to `b`
performs the full ungrab sequence of `a` — seat update, caption update
observing a null owner, trace — strictly before the grab sequence that
assigns ownership to `b`, and the ungrab step really clears the owner
field; (3) for every sequence of grab/ungrab/mode-change calls, at most one
console is the pointer owner at any time. -/
theorem grab_pointer_arbitration (s : GrabState) (b : VC) (reason : Nat)
    (px py : Int) :
    (s.ptr_owner = some b → gd_grab_pointer b reason px py s = (s, [])) ∧
    (∀ a, s.ptr_owner = some a → a ≠ b →
      gd_grab_pointer b reason px py s =
        ({ s with
           ptr_owner := some b, grab_x_root := px, grab_y_root := py },
         [GrabEvent.seatUpdate a (decide (s.kbd_owner = some a)) false,
          GrabEvent.caption none,
          GrabEvent.traceUngrab a,
          GrabEvent.seatUpdate b (decide (s.kbd_owner = some b)) true,
          GrabEvent.caption (some b),
          GrabEvent.traceGrab b reason]) ∧
      (gd_ungrab_pointer s).1.ptr_owner = none) ∧
    (∀ (ops : List PtrOp) (s0 : GrabState) (u v : VC),
      (applyPtrOps s0 ops).1.ptr_owner = some u →
      (applyPtrOps s0 ops).1.ptr_owner = some v → u = v) := by
  refine ⟨fun hb => ?_, fun a ha hab => ?_,
          fun ops s0 u v hu hv => by rw [hu] at hv; exact (Option.some.injEq u v ▸ hv : u = v)⟩
  · unfold gd_grab_pointer
    rw [hb]
    simp
  · obtain ⟨po, ko, gx, gy, gas⟩ := s
    simp only [GrabState.mk.injEq] at ha ⊢
    subst_vars
    unfold gd_grab_pointer gd_ungrab_pointer
    simp [hab]

/-- Two distinct consoles for the C3 witness. -/
def c3_console_a : VC := ⟨0, false⟩

/-- Second console for the C3 witness. -/
def c3_console_b : VC := ⟨1, false⟩

/-- A state in which `c3_console_a` owns the pointer. -/
def c3_state : GrabState := ⟨some c3_console_a, none, 0, 0, false⟩

/-- Witness for C3: grabbing for the current owner is a no-op, and handing
the pointer from console a to console b emits the ungrab-of-a sequence
before the grab-of-b sequence. -/
theorem grab_pointer_arbitration_witness :
    (c3_state.ptr_owner = some c3_console_a) ∧
    gd_grab_pointer c3_console_a 0 5 6 c3_state = (c3_state, []) ∧
    gd_grab_pointer c3_console_b 0 5 6 c3_state =
      ({ c3_state with
         ptr_owner := some c3_console_b, grab_x_root := 5,
         grab_y_root := 6 },
       [GrabEvent.seatUpdate c3_console_a false false,
        GrabEvent.caption none,
        GrabEvent.traceUngrab c3_console_a,
        GrabEvent.seatUpdate c3_console_b false true,
        GrabEvent.caption (some c3_console_b),
        GrabEvent.traceGrab c3_console_b 0]) := by
  refine ⟨rfl, (grab_pointer_arbitration c3_state c3_console_a 0 5 6).1 rfl, ?_⟩
  have h := ((grab_pointer_arbitration c3_state c3_console_b 0 5 6).2.1
              c3_console_a rfl (by decide)).1
  exact h.trans (by decide)

/-- Exiting scanout mode through `gtk_gl_area_set_scanout_mode` (vc
variant) clears the mode flag, destroys (zeroes) the guest framebuffer,
and — when a display surface exists — destroys and recreates the
composited-path surface texture. -/
theorem set_scanout_mode_vc_exit (vc : GfxState)
    (h : vc.scanout_mode = true) :
    (gtk_gl_area_set_scanout_mode_vc vc false).1.scanout_mode = false ∧
    (gtk_gl_area_set_scanout_mode_vc vc false).1.guest_fb = EglFb.empty ∧
    GfxEffect.eglFbDestroy ∈ (gtk_gl_area_set_scanout_mode_vc vc false).2 ∧
    (vc.ds ≠ none →
      GfxEffect.surfaceDestroyTexture ∈
        (gtk_gl_area_set_scanout_mode_vc vc false).2 ∧
      GfxEffect.surfaceCreateTexture ∈
        (gtk_gl_area_set_scanout_mode_vc vc false).2) := by
  unfold gtk_gl_area_set_scanout_mode_vc
  cases hd : vc.ds <;> simp [h, hd]

/-- Claim C4: calling `gd_gl_area_scanout_texture` (the registered
gtk4-gfx-vc.c variant) with a zero texture id or zero width or zero height
always leaves `scanout_mode = false`; and whenever this transitions the
console out of scanout mode, the guest framebuffer is destroyed and — with
a display surface present, which holds from the first surface switch
onward — the composited-path surface texture is destroyed and recreated. -/
theorem scanout_texture_zero_disables (vc : GfxState) (backing_id : Nat)
    (y0 : Bool) (bw bh x y w h : Nat)
    (hz : backing_id = 0 ∨ w = 0 ∨ h = 0) :
    (gd_gl_area_scanout_texture_vc vc backing_id y0 bw bh x y w h).1.scanout_mode
      = false ∧
    (vc.scanout_mode = true →
      (gd_gl_area_scanout_texture_vc vc backing_id y0 bw bh x y w h).1.guest_fb
        = EglFb.empty ∧
      GfxEffect.eglFbDestroy ∈
        (gd_gl_area_scanout_texture_vc vc backing_id y0 bw bh x y w h).2 ∧
      (vc.ds ≠ none →
        GfxEffect.surfaceDestroyTexture ∈
          (gd_gl_area_scanout_texture_vc vc backing_id y0 bw bh x y w h).2 ∧
        GfxEffect.surfaceCreateTexture ∈
          (gd_gl_area_scanout_texture_vc vc backing_id y0 bw bh x y w h).2)) := by
  have hred : gd_gl_area_scanout_texture_vc vc backing_id y0 bw bh x y w h =
      gtk_gl_area_set_scanout_mode_vc
        { vc with x := x, y := y, w := w, h := h, y0_top := y0 } false := by
    unfold gd_gl_area_scanout_texture_vc
    rcases hz with hz | hz | hz <;> simp [hz]
  rw [hred]
  cases hm : vc.scanout_mode
  · refine ⟨rfl, fun hc => Bool.noConfusion hc⟩
  · have hex := set_scanout_mode_vc_exit
      { vc with x := x, y := y, w := w, h := h, y0_top := y0,
                scanout_mode := true } rfl
    exact ⟨hex.1, fun _ => ⟨hex.2.1, hex.2.2.1, fun hds => hex.2.2.2 hds⟩⟩

/-- A console in scanout mode with a display surface, for the C4
witness. -/
def c4_state : GfxState :=
  { x := 0, y := 0, w := 1920, h := 1080, y0_top := false,
    scanout_mode := true, guest_fb := ⟨1920, 1080, 7, none⟩,
    ds := some ⟨800, 600, false⟩, gls := true, glupdates := 0 }

/-- Witness for C4: a zero texture id on a console in scanout mode drops to
composited mode, destroys the guest framebuffer and recreates the surface
texture. -/
theorem scanout_texture_zero_disables_witness :
    ((0 : Nat) = 0 ∨ (1920 : Nat) = 0 ∨ (1080 : Nat) = 0) ∧
    (gd_gl_area_scanout_texture_vc c4_state 0 false 1920 1080 0 0 1920
       1080).1.scanout_mode = false ∧
    GfxEffect.surfaceCreateTexture ∈
      (gd_gl_area_scanout_texture_vc c4_state 0 false 1920 1080 0 0 1920
         1080).2 :=
  ⟨Or.inl rfl,
   (scanout_texture_zero_disables c4_state 0 false 1920 1080 0 0 1920 1080
      (Or.inl rfl)).1,
   (((scanout_texture_zero_disables c4_state 0 false 1920 1080 0 0 1920 1080
      (Or.inl rfl)).2 rfl).2.2 (by decide)).2⟩

/-- A console with an initialized shader displaying a 640x480 surface, for
the C5 counterexample. -/
def c5_state : GfxState :=
  { x := 0, y := 0, w := 0, h := 0, y0_top := false, scanout_mode := false,
    guest_fb := EglFb.empty, ds := some ⟨640, 480, false⟩, gls := true,
    glupdates := 0 }

/-- A placeholder surface with dimensions differing from 640x480. -/
def c5_surface : DisplaySurface := ⟨800, 600, true⟩

/-- Claim C5 is false on the code: switching a nonzero-index console from a
640x480 surface to an 800x600 placeholder surface changes the dimensions
but requests no window resize — the placeholder branch of
`gd_dpy_gfx_switch` releases the shader and returns before the resize
check. -/
theorem switch_resize_claim_false :
    c5_state.ds = some ⟨640, 480, false⟩ ∧
    c5_surface.width ≠ 640 ∧
    (gd_dpy_gfx_switch 1 c5_state c5_surface).2.count
      GfxEffect.updateWindowsize = 0 := by
  refine ⟨rfl, by decide, ?_⟩
  decide

/-- Amended claim C5: `gd_dpy_gfx_switch` with a surface of unchanged
dimensions never requests a window resize; with changed dimensions it
requests exactly one resize provided the shader state is initialized and
the new surface is not a placeholder on a nonzero-index console; in the
placeholder-on-secondary-console case and in the missing-shader case no
resize is requested. -/
theorem switch_resize_on_dim_change (idx : Nat) (vc : GfxState)
    (surface old : DisplaySurface) (hold : vc.ds = some old) :
    ((old.width = surface.width ∧ old.height = surface.height) →
      (gd_dpy_gfx_switch idx vc surface).2.count
        GfxEffect.updateWindowsize = 0) ∧
    ((old.width ≠ surface.width ∨ old.height ≠ surface.height) →
      vc.gls = true → ¬(surface.placeholder = true ∧ idx ≠ 0) →
      (gd_dpy_gfx_switch idx vc surface).2.count
        GfxEffect.updateWindowsize = 1) ∧
    (((surface.placeholder = true ∧ idx ≠ 0) ∨ vc.gls = false) →
      (gd_dpy_gfx_switch idx vc surface).2.count
        GfxEffect.updateWindowsize = 0) := by
  have he : (gd_dpy_gfx_switch idx vc surface).2 =
      if surface.placeholder = true ∧ idx ≠ 0 then
        [GfxEffect.surfaceDestroyTexture, GfxEffect.finiShader]
      else if vc.gls = false then
        [GfxEffect.surfaceDestroyTexture, GfxEffect.initShader,
         GfxEffect.surfaceCreateTexture]
      else if old.width ≠ surface.width ∨ old.height ≠ surface.height then
        [GfxEffect.surfaceDestroyTexture, GfxEffect.updateWindowsize,
         GfxEffect.surfaceCreateTexture]
      else
        [GfxEffect.surfaceDestroyTexture, GfxEffect.surfaceCreateTexture] := by
    simp only [gd_dpy_gfx_switch]
    rw [hold]
    by_cases h1 : surface.placeholder = true ∧ idx ≠ 0
    · simp [h1]
    · by_cases h2 : vc.gls = false
      · simp [h1, h2]
      · by_cases h3 : old.width ≠ surface.width ∨ old.height ≠ surface.height
        · simp [h1, h2, h3]
        · simp [h1, h2, h3]
  refine ⟨fun hsame => ?_, fun hdiff hgls hnp => ?_, fun hcase => ?_⟩
  · rw [he]
    by_cases h1 : surface.placeholder = true ∧ idx ≠ 0
    · rw [if_pos h1]; rfl
    · rw [if_neg h1]
      by_cases h2 : vc.gls = false
      · rw [if_pos h2]; rfl
      · rw [if_neg h2, if_neg (by simp [hsame.1, hsame.2])]; rfl
  · rw [he, if_neg hnp, if_neg (by simp [hgls]), if_pos hdiff]; rfl
  · rcases hcase with hp | hg
    · rw [he, if_pos hp]; rfl
    · rw [he]
      by_cases h1 : surface.placeholder = true ∧ idx ≠ 0
      · rw [if_pos h1]; rfl
      · rw [if_neg h1, if_pos hg]; rfl

/-- A console state for the C5 witness (shader present, 640x480
surface). -/
def c5_wit_state : GfxState :=
  { x := 0, y := 0, w := 0, h := 0, y0_top := false, scanout_mode := false,
    guest_fb := EglFb.empty, ds := some ⟨640, 480, false⟩, gls := true,
    glupdates := 0 }

/-- Witness for C5 (amended): a genuine dimension change to a real surface
requests exactly one resize, and a same-dimension switch requests none. -/
theorem switch_resize_on_dim_change_witness :
    c5_wit_state.ds = some ⟨640, 480, false⟩ ∧
    (gd_dpy_gfx_switch 0 c5_wit_state ⟨800, 600, false⟩).2.count
      GfxEffect.updateWindowsize = 1 ∧
    (gd_dpy_gfx_switch 0 c5_wit_state ⟨640, 480, false⟩).2.count
      GfxEffect.updateWindowsize = 0 :=
  ⟨rfl,
   (switch_resize_on_dim_change 0 c5_wit_state ⟨800, 600, false⟩
      ⟨640, 480, false⟩ rfl).2.1 (by decide) rfl (by decide),
   (switch_resize_on_dim_change 0 c5_wit_state ⟨640, 480, false⟩
      ⟨640, 480, false⟩ rfl).1 (by decide)⟩

/-- Claim C8: in relative pointer mode, when the last recorded position is
valid and the event's console owns the pointer, `gd_motion_event` queues
exactly one relative event pair whose deltas are the difference between the
newly converted guest-surface coordinate (`motionConv`: letterbox offset
and scale conversion) and the last recorded one, followed by a sync; when
the last position is invalid or the console is not the owner, no event is
queued. -/
theorem motion_relative_delta (is_owner : Bool) (surf : DisplaySurface)
    (scale : ℚ) (ws ww wh : Int) (geo : MonitorGeometry)
    (pointer_x pointer_y : ℚ) (s : MotionState) :
    (s.last_set = true → is_owner = true →
      (gd_motion_event false is_owner (some surf) scale ws ww wh geo
         pointer_x pointer_y s).2 =
        [InputEvent.relAxis 0
           (motionConv scale ws ww surf.width pointer_x - s.last_x),
         InputEvent.relAxis 1
           (motionConv scale ws wh surf.height pointer_y - s.last_y),
         InputEvent.sync]) ∧
    ((s.last_set = false ∨ is_owner = false) →
      (gd_motion_event false is_owner (some surf) scale ws ww wh geo
         pointer_x pointer_y s).2 = []) := by
  obtain ⟨lx, ly, lset⟩ := s
  constructor
  · intro hset howner
    simp only at hset howner
    subst hset; subst howner
    unfold gd_motion_event
    simp only [Bool.false_eq_true, if_false, Bool.and_self, if_true]
    split <;> rfl
  · intro hcase
    unfold gd_motion_event
    have hcase2 : lset = false ∨ is_owner = false := hcase
    have hfalse : (lset && is_owner) = false := by
      rcases hcase2 with hc | hc <;> simp [hc]
    simp only [Bool.false_eq_true, if_false, hfalse]
    split
    · split <;> rfl
    · rfl

/-- Witness for C8: with unit scales, a 640x480 surface letterboxed in a
700x500 window, pointer at (100, 50) and last position (10, 20), the
queued deltas are (100-30-10, 50-10-20) = (60, 20) followed by a sync; a
non-owning console queues nothing. -/
theorem motion_relative_delta_witness :
    ((⟨10, 20, true⟩ : MotionState).last_set = true) ∧
    (gd_motion_event false true (some ⟨640, 480, false⟩) 1 1 700 500
       ⟨0, 0, 10000, 10000⟩ 100 50 ⟨10, 20, true⟩).2 =
      [InputEvent.relAxis 0 60, InputEvent.relAxis 1 20, InputEvent.sync] ∧
    (gd_motion_event false false (some ⟨640, 480, false⟩) 1 1 700 500
       ⟨0, 0, 10000, 10000⟩ 100 50 ⟨10, 20, true⟩).2 = [] := by
  refine ⟨rfl, ?_, ?_⟩
  · have h := (motion_relative_delta true ⟨640, 480, false⟩ 1 1 700 500
      ⟨0, 0, 10000, 10000⟩ 100 50 ⟨10, 20, true⟩).1 rfl rfl
    rw [h]
    simp [motionConv, ratTrunc, mul_one, div_one]
  · exact (motion_relative_delta false ⟨640, 480, false⟩ 1 1 700 500
      ⟨0, 0, 10000, 10000⟩ 100 50 ⟨10, 20, true⟩).2 (Or.inr rfl)

/-- Two states with the same pending dma-buf agree on the fence
invariant. -/
theorem pendingFenceOK_congr {a b : GfxState}
    (hab : a.guest_fb.dmabuf = b.guest_fb.dmabuf) :
    pendingFenceOK a = pendingFenceOK b := by
  unfold pendingFenceOK
  rw [hab]

/-- A state with no pending dma-buf satisfies the fence invariant. -/
theorem pendingFenceOK_none {a : GfxState} (ha : a.guest_fb.dmabuf = none) :
    pendingFenceOK a = true := by
  unfold pendingFenceOK
  rw [ha]

/-- `gtk_gl_area_set_scanout_mode` (vc variant) leaves the pending dma-buf
reference alone or clears it. -/
theorem pending_set_scanout_mode_vc (vc : GfxState) (b : Bool) :
    (gtk_gl_area_set_scanout_mode_vc vc b).1.guest_fb.dmabuf =
      vc.guest_fb.dmabuf ∨
    (gtk_gl_area_set_scanout_mode_vc vc b).1.guest_fb.dmabuf = none := by
  simp only [gtk_gl_area_set_scanout_mode_vc]
  split
  · exact Or.inl rfl
  · split
    · exact Or.inl rfl
    · split <;> exact Or.inr rfl

/-- `gd_gl_area_scanout_texture` (vc variant) leaves the pending dma-buf
reference alone or clears it (`egl_fb_setup_for_tex` does not touch it). -/
theorem pending_scanout_texture_vc (vc : GfxState) (b : Nat) (y0 : Bool)
    (bw bh x y w h : Nat) :
    (gd_gl_area_scanout_texture_vc vc b y0 bw bh x y w h).1.guest_fb.dmabuf =
      vc.guest_fb.dmabuf ∨
    (gd_gl_area_scanout_texture_vc vc b y0 bw bh x y w h).1.guest_fb.dmabuf =
      none := by
  simp only [gd_gl_area_scanout_texture_vc]
  split
  · exact pending_set_scanout_mode_vc _ _
  · exact pending_set_scanout_mode_vc _ _

/-- The set-scanout-mode path never fires the block signal. -/
theorem blockOn_not_mem_set_scanout_vc (vc : GfxState) (b : Bool)
    (d : DmaBuf) :
    GfxEffect.blockOn d ∉ (gtk_gl_area_set_scanout_mode_vc vc b).2 := by
  simp only [gtk_gl_area_set_scanout_mode_vc]
  split
  · simp
  · split
    · simp
    · split <;> simp

/-- The scanout-texture path never fires the block signal. -/
theorem blockOn_not_mem_scanout_texture_vc (vc : GfxState) (b : Nat)
    (y0 : Bool) (bw bh x y w h : Nat) (d : DmaBuf) :
    GfxEffect.blockOn d ∉
      (gd_gl_area_scanout_texture_vc vc b y0 bw bh x y w h).2 := by
  simp only [gd_gl_area_scanout_texture_vc]
  split
  · exact blockOn_not_mem_set_scanout_vc _ _ _
  · intro hmem
    rcases List.mem_append.mp hmem with hm | hm
    · exact blockOn_not_mem_set_scanout_vc _ _ _ hm
    · simp at hm

/-- Every scanout operation preserves the fence invariant, and every block
signal it fires is on account of a fence-capable dma-buf. -/
theorem applyGfxOp_fence_invariant (vc : GfxState) (op : GfxOp)
    (h : pendingFenceOK vc = true) :
    pendingFenceOK (applyGfxOp vc op).1 = true ∧
    (∀ d, GfxEffect.blockOn d ∈ (applyGfxOp vc op).2 →
      d.allow_fences = true) := by
  cases op with
  | scanoutTexture bid yflip bw bh px py pw ph =>
    simp only [applyGfxOp]
    refine ⟨?_, fun d hd =>
      absurd hd
        (blockOn_not_mem_scanout_texture_vc vc bid yflip bw bh px py pw ph d)⟩
    rcases pending_scanout_texture_vc vc bid yflip bw bh px py pw ph with
      hp | hp
    · rw [pendingFenceOK_congr hp]
      exact h
    · exact pendingFenceOK_none hp
  | scanoutDmabuf d t =>
    simp only [applyGfxOp]
    have hpend : (gd_gl_area_scanout_dmabuf_vc vc d t).1.guest_fb.dmabuf =
          vc.guest_fb.dmabuf ∨
        (gd_gl_area_scanout_dmabuf_vc vc d t).1.guest_fb.dmabuf = none ∨
        ((gd_gl_area_scanout_dmabuf_vc vc d t).1.guest_fb.dmabuf =
            some { d with texture := t } ∧ d.allow_fences = true) := by
      simp only [gd_gl_area_scanout_dmabuf_vc]
      split
      · exact Or.inl rfl
      · split
        · next hf => exact Or.inr (Or.inr ⟨rfl, by simpa using hf⟩)
        · rcases pending_scanout_texture_vc vc t false d.width d.height 0 0
            d.width d.height with hp | hp
          · exact Or.inl hp
          · exact Or.inr (Or.inl hp)
    have heff : ∀ dd, GfxEffect.blockOn dd ∉
        (gd_gl_area_scanout_dmabuf_vc vc d t).2 := by
      intro dd
      simp only [gd_gl_area_scanout_dmabuf_vc]
      split
      · simp
      · split
        · exact blockOn_not_mem_scanout_texture_vc vc t false d.width
            d.height 0 0 d.width d.height dd
        · exact blockOn_not_mem_scanout_texture_vc vc t false d.width
            d.height 0 0 d.width d.height dd
    refine ⟨?_, fun dd hdd => absurd hdd (heff dd)⟩
    rcases hpend with hp | hp | ⟨hp, hf⟩
    · rw [pendingFenceOK_congr hp]
      exact h
    · exact pendingFenceOK_none hp
    · unfold pendingFenceOK
      rw [hp]
      simpa using hf
  | scanoutDisable =>
    simp only [applyGfxOp]
    refine ⟨?_, fun d hd =>
      absurd hd (blockOn_not_mem_set_scanout_vc vc false d)⟩
    rcases pending_set_scanout_mode_vc vc false with hp | hp
    · rw [pendingFenceOK_congr hp]
      exact h
    · exact pendingFenceOK_none hp
  | flushVc =>
    exact ⟨h, fun d hd => by simp [applyGfxOp,
      gd_gl_area_scanout_flush_vc] at hd⟩
  | flushGlarea =>
    simp only [applyGfxOp]
    cases hp : vc.guest_fb.dmabuf with
    | none =>
      have hres : gd_gl_area_scanout_flush_glarea vc =
          (vc, [GfxEffect.queueRender]) := by
        unfold gd_gl_area_scanout_flush_glarea
        simp only [hp]
      rw [hres]
      exact ⟨h, fun d hd => by simp at hd⟩
    | some dd =>
      have hdd : dd.allow_fences = true := by
        have h2 := h
        unfold pendingFenceOK at h2
        rw [hp] at h2
        exact h2
      by_cases hsub : dd.draw_submitted = true
      · have hres : gd_gl_area_scanout_flush_glarea vc =
            (vc, [GfxEffect.queueRender]) := by
          unfold gd_gl_area_scanout_flush_glarea
          simp only [hp]
          rw [if_pos hsub]
        rw [hres]
        exact ⟨h, fun d hd => by simp at hd⟩
      · have hres : gd_gl_area_scanout_flush_glarea vc =
            ({ vc with
               guest_fb := { vc.guest_fb with
                 dmabuf := some { dd with draw_submitted := true } } },
             [GfxEffect.blockOn dd, GfxEffect.queueRender]) := by
          unfold gd_gl_area_scanout_flush_glarea
          simp only [hp]
          rw [if_neg hsub]
        rw [hres]
        constructor
        · unfold pendingFenceOK
          simpa using hdd
        · intro d hd
          simp at hd
          subst hd
          exact hdd
  | hwFlushed =>
    simp only [applyGfxOp]
    cases hp : vc.guest_fb.dmabuf with
    | none =>
      have hres : gd_hw_gl_flushed vc = none := by
        unfold gd_hw_gl_flushed
        simp only [hp]
      rw [hres]
      exact ⟨h, fun d hd => by simp at hd⟩
    | some dd =>
      have hdd : dd.allow_fences = true := by
        have h2 := h
        unfold pendingFenceOK at h2
        rw [hp] at h2
        exact h2
      have hres : gd_hw_gl_flushed vc =
          some ({ vc with
                  guest_fb := { vc.guest_fb with
                    dmabuf := some { dd with fence_fd := -1 } } },
                [GfxEffect.unregisterFd dd.fence_fd,
                 GfxEffect.closeFd dd.fence_fd, GfxEffect.blockOff]) := by
        unfold gd_hw_gl_flushed
        simp only [hp]
      rw [hres]
      constructor
      · unfold pendingFenceOK
        simpa using hdd
      · intro d hd
        simp at hd

/-- Sequences of scanout operations preserve the fence invariant, and every
block signal fired along the way is on account of a fence-capable
dma-buf. -/
theorem applyGfxOps_fence_invariant (ops : List GfxOp) (vc : GfxState)
    (h : pendingFenceOK vc = true) :
    pendingFenceOK (applyGfxOps vc ops).1 = true ∧
    (∀ d, GfxEffect.blockOn d ∈ (applyGfxOps vc ops).2 →
      d.allow_fences = true) := by
  induction ops generalizing vc with
  | nil => exact ⟨h, fun d hd => absurd hd (by simp [applyGfxOps])⟩
  | cons op ops ih =>
    have h1 := applyGfxOp_fence_invariant vc op h
    have h2 := ih (applyGfxOp vc op).1 h1.1
    refine ⟨h2.1, fun d hd => ?_⟩
    simp only [applyGfxOps] at hd
    rcases List.mem_append.mp hd with hm | hm
    · exact h1.2 d hm
    · exact h2.2 d hm

/-- Claim C6: a failed dma-buf import leaves the console state unchanged;
a dma-buf whose `allow_fences` flag is false is never retained as the
pending guest framebuffer; the imported dma-buf is pending afterwards only
when it allows fences and the import produced a texture; and after an
imported non-fence-capable dma-buf, no subsequent sequence of scanout
operations — the registered no-op flush and the gl-area flush included —
ever fires the emulation-side block signal on account of that buffer:
every fired block concerns a fence-capable buffer, which the imported one
is not. -/
theorem scanout_dmabuf_fence_gating (vc : GfxState) (d : DmaBuf)
    (import_tex : Nat) (ops : List GfxOp)
    (hok : pendingFenceOK vc = true)
    (hfresh : vc.guest_fb.dmabuf ≠ some { d with texture := import_tex }) :
    (import_tex = 0 →
      gd_gl_area_scanout_dmabuf_vc vc d import_tex = (vc, [])) ∧
    (d.allow_fences = false →
      (gd_gl_area_scanout_dmabuf_vc vc d import_tex).1.guest_fb.dmabuf ≠
        some { d with texture := import_tex }) ∧
    ((gd_gl_area_scanout_dmabuf_vc vc d import_tex).1.guest_fb.dmabuf =
        some { d with texture := import_tex } →
      d.allow_fences = true ∧ import_tex ≠ 0) ∧
    (d.allow_fences = false →
      ∀ p, GfxEffect.blockOn p ∈
          (applyGfxOps (gd_gl_area_scanout_dmabuf_vc vc d import_tex).1
            ops).2 →
        p.allow_fences = true ∧ p ≠ { d with texture := import_tex }) := by
  have hfail : import_tex = 0 →
      gd_gl_area_scanout_dmabuf_vc vc d import_tex = (vc, []) := by
    intro h0
    subst h0
    simp [gd_gl_area_scanout_dmabuf_vc]
  have hnotkept : d.allow_fences = false →
      (gd_gl_area_scanout_dmabuf_vc vc d import_tex).1.guest_fb.dmabuf ≠
        some { d with texture := import_tex } := by
    intro hff
    by_cases h0 : import_tex = 0
    · rw [hfail h0]
      exact hfresh
    · unfold gd_gl_area_scanout_dmabuf_vc
      rw [if_neg (by simpa using h0), if_neg (by simpa using hff)]
      rcases pending_scanout_texture_vc vc import_tex false d.width d.height
        0 0 d.width d.height with hp | hp
      · rw [hp]
        exact hfresh
      · rw [hp]
        simp
  refine ⟨hfail, hnotkept, fun heq => ?_, fun hff p hp => ?_⟩
  · by_cases hf : d.allow_fences = true
    · refine ⟨hf, fun h0 => ?_⟩
      rw [hfail h0] at heq
      exact hfresh heq
    · exact absurd heq (hnotkept (by simpa using hf))
  · have hinv :=
      applyGfxOp_fence_invariant vc (GfxOp.scanoutDmabuf d import_tex) hok
    have hseq := applyGfxOps_fence_invariant ops
      (gd_gl_area_scanout_dmabuf_vc vc d import_tex).1 hinv.1
    have hpf := hseq.2 p hp
    refine ⟨hpf, fun hpe => ?_⟩
    rw [hpe] at hpf
    rw [show ({ d with texture := import_tex } : DmaBuf).allow_fences =
      d.allow_fences from rfl, hff] at hpf
    exact Bool.noConfusion hpf

/-- A console with no pending dma-buf, for the C6 witness. -/
def c6_state : GfxState :=
  { x := 0, y := 0, w := 0, h := 0, y0_top := false, scanout_mode := false,
    guest_fb := EglFb.empty, ds := some ⟨640, 480, false⟩, gls := true,
    glupdates := 0 }

/-- A dma-buf that does not allow fences. -/
def c6_dmabuf : DmaBuf := ⟨1280, 720, 0, -1, false, false⟩

/-- Witness for C6: importing the non-fence-capable `c6_dmabuf` (import
succeeding with texture 9) does not retain it as the pending guest
framebuffer. -/
theorem scanout_dmabuf_fence_gating_witness :
    pendingFenceOK c6_state = true ∧
    c6_state.guest_fb.dmabuf ≠ some { c6_dmabuf with texture := 9 } ∧
    (gd_gl_area_scanout_dmabuf_vc c6_state c6_dmabuf 9).1.guest_fb.dmabuf ≠
      some { c6_dmabuf with texture := 9 } :=
  ⟨rfl, by decide,
   (scanout_dmabuf_fence_gating c6_state c6_dmabuf 9 [GfxOp.flushGlarea]
      rfl (by decide)).2.1 rfl⟩

end Gtk4
